import Mathlib

/-!
Verification of the dry-run confirmation wrapper of Vulnix
(`Vulnix-TestVersion.py`, method `VulnixAutomator.save_script`).

The wrapper walks the generated remediation script line by line.  A line is
wrapped in an interactive confirmation block exactly when it is non-blank,
not a comment, not indented, contains none of the `COMPLEX_MARKERS`
substrings in its stripped text, and either starts with one of the
`DANGEROUS_COMMANDS` strings or contains a space-padded output redirection
pattern.  All other lines pass through unchanged.

Python string primitives (`str.strip`, `str.startswith`, the `in` substring
test, `str.replace`, `str.splitlines`, `"\n".join`) are embedded below as
executable Lean functions over the character lists of strings.  `pyStrip`
models stripping of the ASCII whitespace characters; `pySplitlines` models
the usual line-break characters handled by Python.
-/

/-- Whitespace test used by the embedding of Python `str.strip`. -/
def pyIsSpace (c : Char) : Bool :=
  c = ' ' || c = '\t' || c = '\n' || c = '\r' || c = '\x0b' || c = '\x0c'

/-- Strip `pyIsSpace` characters from both ends of a character list. -/
def stripL (l : List Char) : List Char :=
  ((l.dropWhile pyIsSpace).reverse.dropWhile pyIsSpace).reverse

/-- Embedding of Python `line.strip()`. -/
def pyStrip (s : String) : String :=
  String.mk (stripL s.data)

/-- Embedding of Python `s.startswith(pre)`. -/
def pyStartsWith (s pre : String) : Bool :=
  pre.data.isPrefixOf s.data

/-- Substring occurrence test on character lists (Python `needle in hay`). -/
def containsSub (needle : List Char) : List Char → Bool
  | [] => needle.isEmpty
  | c :: rest => needle.isPrefixOf (c :: rest) || containsSub needle rest

/-- Embedding of the Python substring test `pat in s`. -/
def strContains (s pat : String) : Bool :=
  containsSub pat.data s.data

/-- Replace every double quote by a backslash-escaped double quote
(Python `l.replace(chr(34), chr(92) + chr(34))`). -/
def escQuote : List Char → List Char
  | [] => []
  | c :: cs => if c = '"' then '\\' :: '"' :: escQuote cs else c :: escQuote cs

/-- Remove every single-quote character (Python `s.replace(chr(39), "")`). -/
def remApos : List Char → List Char
  | [] => []
  | c :: cs => if c = Char.ofNat 39 then remApos cs else c :: remApos cs

/-- Embedding of the prompt-text sanitizer
`safe_l = l.replace(chr(34), chr(92) + chr(34)).replace(chr(39), "")`. -/
def pySafe (s : String) : String :=
  String.mk (remApos (escQuote s.data))

/-- Line-break characters recognised by the embedding of `str.splitlines`. -/
def isLineBreak (c : Char) : Bool :=
  c = '\n' || c = '\r' || c = '\x0b' || c = '\x0c' ||
  c = Char.ofNat 28 || c = Char.ofNat 29 || c = Char.ofNat 30 ||
  c = Char.ofNat 133 || c = Char.ofNat 8232 || c = Char.ofNat 8233

/-- Core splitter for `pySplitlines`; `acc` holds the current line reversed. -/
def splitLinesCore (acc : List Char) : List Char → List (List Char)
  | [] => if acc.isEmpty then [] else [acc.reverse]
  | '\r' :: '\n' :: rest => acc.reverse :: splitLinesCore [] rest
  | c :: rest =>
      if isLineBreak c then acc.reverse :: splitLinesCore [] rest
      else splitLinesCore (c :: acc) rest

/-- Embedding of Python `content.splitlines()`. -/
def pySplitlines (s : String) : List String :=
  (splitLinesCore [] s.data).map String.mk

/-- Allow-list of command starters the wrapper gates
(`DANGEROUS_COMMANDS` in `save_script`); note that the filesystem and
package tool names carry a trailing space in the source. -/
def DANGEROUS_COMMANDS : List String :=
  ["apt-get", "apt", "yum", "dnf", "apk", "pacman", "zypper",
   "rm ", "mv ", "cp ", "sed ", "chmod ", "chown ", "dd ",
   "systemctl", "service", "pip ", "npm ", "yarn ", "poetry ",
   "wget", "curl", "dpkg", "rpm"]

/-- Substrings whose presence in the stripped line disables wrapping
(`COMPLEX_MARKERS` in `save_script`); note `if ` carries a trailing space
while `fi` and `do` do not, and `function` is absent. -/
def COMPLEX_MARKERS : List String :=
  [";", "|", "&", "(", ")", "\x7b", "\x7d", "\\", "`",
   "if ", "then", "else", "elif", "fi", "do", "done", "case", "esac"]

/-- Check 1 of `save_script`: blank line or comment (`not l or l.startswith("#")`). -/
def isBlankOrComment (line : String) : Bool :=
  (pyStrip line).isEmpty || pyStartsWith (pyStrip line) "#"

/-- Check 2 of `save_script`: indented line
(`line.startswith(" ") or line.startswith("\t")`). -/
def isIndented (line : String) : Bool :=
  pyStartsWith line " " || pyStartsWith line "\t"

/-- Check 3 of `save_script`: the stripped line contains a complexity marker
(`any(marker in l for marker in COMPLEX_MARKERS)`). -/
def hasComplexMarker (line : String) : Bool :=
  COMPLEX_MARKERS.any (fun m => strContains (pyStrip line) m)

/-- Check 4 of `save_script`: the stripped line starts with a dangerous
command (`l.startswith(cmd)` over `DANGEROUS_COMMANDS`). -/
def isDangerous (line : String) : Bool :=
  DANGEROUS_COMMANDS.any (fun cmd => pyStartsWith (pyStrip line) cmd)

/-- Check 5 of `save_script`: simple destructive redirection
(`" > " in l and not " >> " in l`). -/
def hasBareRedirect (line : String) : Bool :=
  strContains (pyStrip line) " > " && !(strContains (pyStrip line) " >> ")

/-- Decision of the per-line loop of `save_script`: `should_wrap` after the
five checks have run, in source order. -/
def shouldWrap (line : String) : Bool :=
  if isBlankOrComment line then false
  else if isIndented line then false
  else if hasComplexMarker line then false
  else if isDangerous line then true
  else hasBareRedirect line

/-- Prompt line emitted for a wrapped command, parameterised by the
sanitized text (`read -p "[DRY-RUN] Execute: {safe_l}? [y/N] " confirm`). -/
def promptFor (s : String) : String :=
  "read -p \"[DRY-RUN] Execute: " ++ s ++ "? [y/N] \" confirm"

/-- Conditional test line emitted for a wrapped command. -/
def confirmTest : String :=
  "if [[ $confirm == [yY] || $confirm == [yY]es ]]; then"

/-- Transformation of one line by the dry-run loop of `save_script`:
either the four-line confirmation block or the unchanged line. -/
def dryRunWrapLine (line : String) : List String :=
  if shouldWrap line then
    [promptFor (pySafe (pyStrip line)),
     confirmTest,
     "    " ++ line,
     "fi"]
  else [line]

/-- The whole dry-run loop of `save_script`: `new_lines` after processing
every input line in order. -/
def dryRunWrap (lines : List String) : List String :=
  lines.flatMap dryRunWrapLine

/-- Dry-run transformation of the whole script text:
`"\n".join(new_lines)` over the wrapped `content.splitlines()`. -/
def applyDryRun (content : String) : String :=
  String.intercalate "\n" (dryRunWrap (pySplitlines content))

/-- Observable effects of a completed `save_script` call: the text written
to the fix-script file, the permission bits passed to `os.chmod`, and
whether the success panel was printed. -/
structure SavedScript where
  fileContent : String
  fileMode : Nat
  panelShown : Bool
deriving DecidableEq

/-- Embedding of `VulnixAutomator.save_script`.  `none` models the early
return on falsy content (no file write, no chmod, no success panel); the
dry-run flag comes from `self.config.dry_run`. -/
def save_script (dryRun : Bool) (content : Option String) : Option SavedScript :=
  match content with
  | none => none
  | some c =>
      if c = "" then none
      else
        let c2 := if dryRun then applyDryRun c else c
        some { fileContent := if pyStartsWith c2 "#!" then c2 else "#!/bin/bash\n" ++ c2,
               fileMode := 493,
               panelShown := true }

/-! Helper lemmas about the wrapper. -/

theorem dryRunWrap_nil : dryRunWrap [] = [] := rfl

theorem dryRunWrap_cons (x : String) (t : List String) :
    dryRunWrap (x :: t) = dryRunWrapLine x ++ dryRunWrap t := rfl

theorem dryRunWrap_append (a b : List String) :
    dryRunWrap (a ++ b) = dryRunWrap a ++ dryRunWrap b := by
  induction a with
  | nil => rfl
  | cons x t ih => simp [dryRunWrap_cons, List.cons_append, ih]

theorem shouldWrap_false_of_blank {line : String}
    (h : isBlankOrComment line = true) : shouldWrap line = false := by
  simp [shouldWrap, h]

theorem shouldWrap_false_of_indent {line : String}
    (h : isIndented line = true) : shouldWrap line = false := by
  simp [shouldWrap, h]

theorem shouldWrap_false_of_marker {line : String}
    (h : hasComplexMarker line = true) : shouldWrap line = false := by
  simp [shouldWrap, h]

theorem dryRunWrapLine_of_not {line : String} (h : shouldWrap line = false) :
    dryRunWrapLine line = [line] := by
  simp [dryRunWrapLine, h]

theorem dryRunWrapLine_of_wrap {line : String} (h : shouldWrap line = true) :
    dryRunWrapLine line =
      [promptFor (pySafe (pyStrip line)), confirmTest, "    " ++ line, "fi"] := by
  simp [dryRunWrapLine, h]

theorem dryRunWrapLine_length (line : String) :
    (dryRunWrapLine line).length = if shouldWrap line then 4 else 1 := by
  by_cases h : shouldWrap line <;> simp [dryRunWrapLine, h]

theorem four_space_data (line : String) :
    ("    " ++ line).data = ' ' :: ' ' :: ' ' :: ' ' :: line.data := by
  rw [String.data_append]; rfl

theorem isIndented_four_space (line : String) :
    isIndented ("    " ++ line) = true := by
  have h := four_space_data line
  have h1 : (" " : String).data = [' '] := rfl
  simp [isIndented, pyStartsWith, h, h1, List.isPrefixOf]

theorem containsSub_append_right (n l₁ l₂ : List Char)
    (h : containsSub n l₂ = true) : containsSub n (l₁ ++ l₂) = true := by
  induction l₁ with
  | nil => simpa using h
  | cons c cs ih => simp [containsSub]; exact Or.inr ih

theorem dropWhile_cons_of_false {p : Char → Bool} {c : Char} {l : List Char}
    (h : p c = false) : List.dropWhile p (c :: l) = c :: l := by
  simp [List.dropWhile, h]

theorem stripL_of_ends (a b : Char) (xs : List Char)
    (ha : pyIsSpace a = false) (hb : pyIsSpace b = false) :
    stripL (a :: (xs ++ [b])) = a :: (xs ++ [b]) := by
  unfold stripL
  rw [dropWhile_cons_of_false ha]
  have h1 : (a :: (xs ++ [b])).reverse = b :: (xs.reverse ++ [a]) := by
    simp
  rw [h1, dropWhile_cons_of_false hb]
  simp

theorem promptFor_data_shape (s : String) :
    (promptFor s).data =
      'r' :: (("ead -p \"[DRY-RUN] Execute: ".data ++ s.data ++
        "? [y/N] \" confir".data) ++ ['m']) := by
  have h1 : (promptFor s).data =
      "read -p \"[DRY-RUN] Execute: ".data ++ (s.data ++ "? [y/N] \" confirm".data) := by
    simp [promptFor, String.data_append]
  have h2 : "read -p \"[DRY-RUN] Execute: ".data =
      'r' :: "ead -p \"[DRY-RUN] Execute: ".data := by decide
  have h3 : "? [y/N] \" confirm".data = "? [y/N] \" confir".data ++ ['m'] := by decide
  rw [h1, h2, h3]
  simp [List.append_assoc]

theorem hasComplexMarker_promptFor (s : String) :
    hasComplexMarker (promptFor s) = true := by
  have hstrip : stripL (promptFor s).data = (promptFor s).data := by
    rw [promptFor_data_shape]
    exact stripL_of_ends 'r' 'm' _ (by decide) (by decide)
  have hfi : strContains (pyStrip (promptFor s)) "fi" = true := by
    show containsSub "fi".data (stripL (promptFor s).data) = true
    rw [hstrip, promptFor_data_shape]
    have hbase : containsSub "fi".data ("? [y/N] \" confir".data ++ ['m']) = true := by
      decide
    have hform : ('r' :: (("ead -p \"[DRY-RUN] Execute: ".data ++ s.data ++
          "? [y/N] \" confir".data) ++ ['m'])) =
        (('r' :: "ead -p \"[DRY-RUN] Execute: ".data) ++ s.data) ++
          ("? [y/N] \" confir".data ++ ['m']) := by
      simp [List.append_assoc]
    rw [hform]
    exact containsSub_append_right _ _ _ hbase
  have hmem : "fi" ∈ COMPLEX_MARKERS := by decide
  exact List.any_eq_true.mpr ⟨"fi", hmem, hfi⟩

theorem shouldWrap_promptFor (s : String) : shouldWrap (promptFor s) = false :=
  shouldWrap_false_of_marker (hasComplexMarker_promptFor s)

theorem dryRunWrap_wrapLine (line : String) :
    dryRunWrap (dryRunWrapLine line) = dryRunWrapLine line := by
  by_cases h : shouldWrap line
  · rw [dryRunWrapLine_of_wrap h]
    have hp := dryRunWrapLine_of_not (shouldWrap_promptFor (pySafe (pyStrip line)))
    have hc : dryRunWrapLine confirmTest = [confirmTest] :=
      dryRunWrapLine_of_not (by decide)
    have hb := dryRunWrapLine_of_not
      (shouldWrap_false_of_indent (isIndented_four_space line))
    have hf : dryRunWrapLine "fi" = ["fi"] := dryRunWrapLine_of_not (by decide)
    simp [dryRunWrap, hp, hc, hb, hf]
  · rw [dryRunWrapLine_of_not (by simpa using h)]
    simp [dryRunWrap_cons, dryRunWrap_nil,
      dryRunWrapLine_of_not (by simpa using h)]

theorem isIndented_promptFor (s : String) : isIndented (promptFor s) = false := by
  have hd := promptFor_data_shape s
  have h1 : (" " : String).data = [' '] := rfl
  have h2 : ("\t" : String).data = ['\t'] := rfl
  simp [isIndented, pyStartsWith, hd, h1, h2, List.isPrefixOf]

theorem four_space_ne (line : String) : "    " ++ line ≠ line := by
  intro e
  have hlen := congrArg String.length e
  rw [String.length_append] at hlen
  have h4 : ("    " : String).length = 4 := rfl
  rw [h4] at hlen
  omega

/-- C4: the wrapper is idempotent on its own output: applying the dry-run
wrapper a second time to wrapped output leaves it unchanged, because every
generated line (prompt, test, indented command, closing token) and every
passed-through line is classified as not-to-wrap on the second run. -/
theorem c4_wrapper_idempotent (ls : List String) :
    dryRunWrap (dryRunWrap ls) = dryRunWrap ls := by
  induction ls with
  | nil => rfl
  | cons x t ih =>
      rw [dryRunWrap_cons, dryRunWrap_append, dryRunWrap_wrapLine, ih]

/-- Witness for C4 at a concrete two-line script with one wrapped line. -/
theorem c4_witness :
    dryRunWrap (dryRunWrap ["rm -rf /tmp", "echo ok"]) =
      dryRunWrap ["rm -rf /tmp", "echo ok"] :=
  c4_wrapper_idempotent ["rm -rf /tmp", "echo ok"]

/-- C2: every line classified as blank, comment, indented, or structural
(containing a complexity marker) is emitted by the wrapper unchanged with
no lines inserted on its account, and hence appears in the output. -/
theorem c2_frame_lines (line : String)
    (h : isBlankOrComment line = true ∨ isIndented line = true ∨
      hasComplexMarker line = true) :
    dryRunWrapLine line = [line] ∧
      ∀ ls : List String, line ∈ ls → line ∈ dryRunWrap ls := by
  have hw : shouldWrap line = false := by
    rcases h with h | h | h
    · exact shouldWrap_false_of_blank h
    · exact shouldWrap_false_of_indent h
    · exact shouldWrap_false_of_marker h
  refine ⟨dryRunWrapLine_of_not hw, ?_⟩
  intro ls hmem
  obtain ⟨s, t, rfl⟩ := List.append_of_mem hmem
  rw [dryRunWrap_append, dryRunWrap_cons, dryRunWrapLine_of_not hw]
  simp

/-- Witness for C2 at a concrete comment line inside a two-line script. -/
theorem c2_witness :
    dryRunWrapLine "# update system" = ["# update system"] ∧
      "# update system" ∈ dryRunWrap ["# update system", "ls -la"] := by
  have h := c2_frame_lines "# update system" (Or.inl (by decide))
  exact ⟨h.1, h.2 ["# update system", "ls -la"] (by simp)⟩

/-- C3: the output of the wrapper is at least as long as the input, with
equality exactly when no input line is classified as a wrapped atomic
command. -/
theorem c3_length (ls : List String) :
    ls.length ≤ (dryRunWrap ls).length ∧
      ((dryRunWrap ls).length = ls.length ↔
        ∀ line ∈ ls, shouldWrap line = false) := by
  induction ls with
  | nil => simp [dryRunWrap_nil]
  | cons x t ih =>
      rcases ih with ⟨ih1, ih2⟩
      rw [dryRunWrap_cons]
      have hlen := List.length_append (dryRunWrapLine x) (dryRunWrap t)
      have hwl := dryRunWrapLine_length x
      by_cases h : shouldWrap x
      · simp only [h, if_true] at hwl
        constructor
        · simp only [hlen, hwl, List.length_cons]
          omega
        · constructor
          · intro heq
            rw [hlen, hwl] at heq
            simp only [List.length_cons] at heq
            exfalso
            omega
          · intro hall
            have hx := hall x (List.mem_cons_self x t)
            rw [h] at hx
            exact absurd hx (by simp)
      · have hx0 : shouldWrap x = false := by simpa using h
        have hwl1 : (dryRunWrapLine x).length = 1 := by
          rw [dryRunWrapLine_of_not hx0]
          rfl
        constructor
        · simp only [hlen, hwl1, List.length_cons]
          omega
        · simp only [hlen, hwl1, List.length_cons]
          constructor
          · intro heq line hline
            rcases List.mem_cons.mp hline with rfl | hline
            · exact hx0
            · exact (ih2.mp (by omega)) line hline
          · intro hall
            have h2 := ih2.mpr (fun line hl => hall line (List.mem_cons_of_mem x hl))
            omega

/-- Witness for C3 at a concrete two-line script. -/
theorem c3_witness :
    (["# a", "rm -rf /x"] : List String).length ≤
        (dryRunWrap ["# a", "rm -rf /x"]).length ∧
      ((dryRunWrap ["# a", "rm -rf /x"]).length =
          (["# a", "rm -rf /x"] : List String).length ↔
        ∀ line ∈ (["# a", "rm -rf /x"] : List String), shouldWrap line = false) :=
  c3_length ["# a", "rm -rf /x"]

/-- C8 counterexample: the claim adds the keyword `function` to the marker
set, but the source marker list has no such entry, so a dangerous line
containing the word function is still wrapped rather than passed through. -/
theorem c8_counterexample :
    strContains (pyStrip "rm function.txt") "function" = true ∧
      dryRunWrap ["rm function.txt"] ≠ ["rm function.txt"] := by
  refine ⟨by decide, by decide⟩

/-- C8 amended: every line whose stripped text contains one of the marker
substrings actually listed in the source (`;`, `|`, `&`, parens, braces,
backslash, backtick, `if ` with trailing space, `then`, `else`, `elif`,
`fi`, `do`, `done`, `case`, `esac`; there is no `function` entry) passes
through the wrapper unchanged. -/
theorem c8_marker_lines (line : String) (h : hasComplexMarker line = true) :
    dryRunWrapLine line = [line] :=
  dryRunWrapLine_of_not (shouldWrap_false_of_marker h)

/-- Witness for the amended C8 at a concrete piped line. -/
theorem c8_witness :
    hasComplexMarker "echo a | grep b" = true ∧
      dryRunWrapLine "echo a | grep b" = ["echo a | grep b"] :=
  ⟨by decide, c8_marker_lines "echo a | grep b" (by decide)⟩

/-- C9: the structural-marker test is plain substring matching, so any line
whose stripped text contains the two-character substrings fi or do anywhere
is treated as structural and never wrapped, even a dangerous-prefixed line
such as rm config.txt. -/
theorem c9_substring_markers (line : String)
    (h : (strContains (pyStrip line) "fi" || strContains (pyStrip line) "do") = true) :
    dryRunWrapLine line = [line] := by
  have hm : hasComplexMarker line = true := by
    cases Bool.or_eq_true_iff.mp h with
    | inl hfi => exact List.any_eq_true.mpr ⟨"fi", by decide, hfi⟩
    | inr hdo => exact List.any_eq_true.mpr ⟨"do", by decide, hdo⟩
  exact dryRunWrapLine_of_not (shouldWrap_false_of_marker hm)

/-- Witness for C9: rm config.txt starts with the dangerous prefix rm but
contains fi inside config, so it passes through ungated. -/
theorem c9_witness :
    pyStartsWith (pyStrip "rm config.txt") "rm " = true ∧
      dryRunWrapLine "rm config.txt" = ["rm config.txt"] :=
  ⟨by decide, c9_substring_markers "rm config.txt" (by decide)⟩

/-- C7: the line echo "x" > /etc/resolv.conf is wrapped in a confirmation
block (space-padded single redirect), while echo "x" >> /var/log/app.log
passes through unchanged (append redirect). -/
theorem c7_redirect_examples :
    shouldWrap "echo \"x\" > /etc/resolv.conf" = true ∧
      shouldWrap "echo \"x\" >> /var/log/app.log" = false ∧
      dryRunWrap ["echo \"x\" > /etc/resolv.conf", "echo \"x\" >> /var/log/app.log"] =
        [promptFor (pySafe (pyStrip "echo \"x\" > /etc/resolv.conf")), confirmTest,
         "    " ++ "echo \"x\" > /etc/resolv.conf", "fi",
         "echo \"x\" >> /var/log/app.log"] := by
  refine ⟨by decide, by decide, by decide⟩

/-- C1 counterexample: the line rmdir /data satisfies every hypothesis of
the claim (stripped text starts with the allow-list word rm, non-blank, not
a comment, at column 0, no structural markers) yet passes through ungated,
because the source prefix is the three-character string rm-space; moreover
for a line the wrapper does gate, the output never contains the original
line verbatim, only a copy indented by four spaces. -/
theorem c1_counterexample :
    pyStartsWith (pyStrip "rmdir /data") "rm" = true ∧
      isBlankOrComment "rmdir /data" = false ∧
      isIndented "rmdir /data" = false ∧
      hasComplexMarker "rmdir /data" = false ∧
      dryRunWrap ["rmdir /data"] = ["rmdir /data"] ∧
      shouldWrap "rm -rf /tmp" = true ∧
      (dryRunWrap ["rm -rf /tmp"]).count "rm -rf /tmp" = 0 := by
  decide

/-- C1 amended: for every input line at column 0 that is non-blank, not a
comment, has no structural markers, and starts with one of the dangerous
commands as written in the source (where rm, mv, cp, sed, chmod, chown,
dd, pip, npm, yarn, poetry require a following space), the output contains
in order the prompt line showing the sanitized stripped text and reading
into the variable confirm, the y/Y/yes/Yes test line, the original line
indented by four spaces inside the true branch, and the closing fi. -/
theorem c1_wrapped_block (line : String) (ls : List String)
    (hmem : line ∈ ls)
    (h1 : isBlankOrComment line = false)
    (h2 : isIndented line = false)
    (h3 : hasComplexMarker line = false)
    (h4 : isDangerous line = true) :
    List.Sublist
      [promptFor (pySafe (pyStrip line)), confirmTest, "    " ++ line, "fi"]
      (dryRunWrap ls) := by
  have hw : shouldWrap line = true := by
    simp [shouldWrap, h1, h2, h3, h4]
  obtain ⟨s, t, rfl⟩ := List.append_of_mem hmem
  rw [dryRunWrap_append, dryRunWrap_cons, dryRunWrapLine_of_wrap hw]
  exact List.Sublist.trans (List.sublist_append_left _ _)
    (List.sublist_append_right _ _)

/-- Witness for the amended C1 at the concrete line of the spec example. -/
theorem c1_witness :
    isDangerous "apt-get install -y curl" = true ∧
      List.Sublist
        [promptFor (pySafe (pyStrip "apt-get install -y curl")), confirmTest,
         "    " ++ "apt-get install -y curl", "fi"]
        (dryRunWrap ["apt-get install -y curl"]) :=
  ⟨by decide,
    c1_wrapped_block "apt-get install -y curl" ["apt-get install -y curl"]
      (by simp) (by decide) (by decide) (by decide) (by decide)⟩

/-- C5 counterexample: verbatim multiplicity is not preserved.  A wrapped
line appears only indented, never verbatim, and a generated fi line can
collide with an input line fi, which then occurs once in the input but
twice in the output. -/
theorem c5_counterexample :
    (dryRunWrap ["rm -rf /tmp"]).count "rm -rf /tmp" = 0 ∧
      (["fi", "rm -rf /tmp"] : List String).count "fi" = 1 ∧
      (dryRunWrap ["fi", "rm -rf /tmp"]).count "fi" = 2 := by
  decide

/-- C5 amended: the output is the in-order concatenation of one block per
input line, and each block contains its input line exactly once: verbatim
when the line is not wrapped, and prefixed with exactly four spaces when it
is wrapped; scaffolding lines of other blocks may coincide with an input
line, so global verbatim multiplicity is not preserved. -/
theorem c5_per_line_copy (ls : List String) (line : String) (hmem : line ∈ ls) :
    (∃ pre post, dryRunWrap ls = pre ++ dryRunWrapLine line ++ post) ∧
      (dryRunWrapLine line).count line +
        (dryRunWrapLine line).count ("    " ++ line) = 1 := by
  constructor
  · obtain ⟨s, t, rfl⟩ := List.append_of_mem hmem
    refine ⟨dryRunWrap s, dryRunWrap t, ?_⟩
    rw [dryRunWrap_append, dryRunWrap_cons]
    simp
  · by_cases h : shouldWrap line
    · have hw : shouldWrap line = true := by simpa using h
      rw [dryRunWrapLine_of_wrap hw]
      have hne_p : promptFor (pySafe (pyStrip line)) ≠ line := by
        intro e
        rw [← e, shouldWrap_promptFor] at hw
        exact absurd hw (by simp)
      have hne_c : confirmTest ≠ line := by
        intro e
        have hct : shouldWrap confirmTest = false := by decide
        rw [← e, hct] at hw
        exact absurd hw (by simp)
      have hne_f : ("fi" : String) ≠ line := by
        intro e
        have hfi : shouldWrap "fi" = false := by decide
        rw [← e, hfi] at hw
        exact absurd hw (by simp)
      have hne_b : ("    " ++ line : String) ≠ line := four_space_ne line
      have hne_pb : promptFor (pySafe (pyStrip line)) ≠ "    " ++ line := by
        intro e
        have hi := isIndented_promptFor (pySafe (pyStrip line))
        rw [e, isIndented_four_space] at hi
        exact absurd hi (by simp)
      have hne_cb : confirmTest ≠ "    " ++ line := by
        intro e
        have hi : isIndented confirmTest = false := by decide
        rw [e, isIndented_four_space] at hi
        exact absurd hi (by simp)
      have hne_fb : ("fi" : String) ≠ "    " ++ line := by
        intro e
        have hi : isIndented "fi" = false := by decide
        rw [e, isIndented_four_space] at hi
        exact absurd hi (by simp)
      simp [List.count_cons, hne_p, hne_c, hne_f, hne_b, hne_pb, hne_cb, hne_fb,
        Ne.symm hne_p, Ne.symm hne_c, Ne.symm hne_f, Ne.symm hne_b,
        Ne.symm hne_pb, Ne.symm hne_cb, Ne.symm hne_fb]
    · have hw : shouldWrap line = false := by simpa using h
      rw [dryRunWrapLine_of_not hw]
      have hne_b : ("    " ++ line : String) ≠ line := four_space_ne line
      simp [List.count_cons, hne_b, Ne.symm hne_b]

/-- Witness for the amended C5 at a concrete wrapped line. -/
theorem c5_witness :
    (dryRunWrapLine "cp a b").count "cp a b" +
      (dryRunWrapLine "cp a b").count ("    " ++ "cp a b") = 1 :=
  (c5_per_line_copy ["cp a b"] "cp a b" (by simp)).2

/-- C6 counterexample: the redirect heuristic of the source requires the
space-padded three-character pattern space-greater-space, so the line
echo hi >out, which contains a greater-than sign not followed by a second
one, is not wrapped even though the claim says it must be. -/
theorem c6_counterexample :
    strContains (pyStrip "echo hi >out") ">" = true ∧
      strContains (pyStrip "echo hi >out") ">>" = false ∧
      isBlankOrComment "echo hi >out" = false ∧
      isIndented "echo hi >out" = false ∧
      hasComplexMarker "echo hi >out" = false ∧
      shouldWrap "echo hi >out" = false ∧
      dryRunWrap ["echo hi >out"] = ["echo hi >out"] := by
  decide

/-- C6 amended: for every non-blank, non-comment, non-indented line with no
structural marker, if the stripped line contains the space-padded pattern
space-greater-space and does not contain space-greater-greater-space, it is
classified atomic and wrapped in a confirmation block, even when its first
token is not on the allow-list. -/
theorem c6_redirect_wrapped (line : String)
    (h1 : isBlankOrComment line = false)
    (h2 : isIndented line = false)
    (h3 : hasComplexMarker line = false)
    (h4 : strContains (pyStrip line) " > " = true)
    (h5 : strContains (pyStrip line) " >> " = false) :
    shouldWrap line = true ∧
      dryRunWrapLine line =
        [promptFor (pySafe (pyStrip line)), confirmTest, "    " ++ line, "fi"] := by
  have hbr : hasBareRedirect line = true := by
    simp [hasBareRedirect, h4, h5]
  have hw : shouldWrap line = true := by
    simp [shouldWrap, h1, h2, h3, hbr]
  exact ⟨hw, dryRunWrapLine_of_wrap hw⟩

/-- Witness for the amended C6 at a line whose first token is not on the
allow-list. -/
theorem c6_witness :
    strContains (pyStrip "date > /tmp/now") " > " = true ∧
      isDangerous "date > /tmp/now" = false ∧
      shouldWrap "date > /tmp/now" = true ∧
      dryRunWrapLine "date > /tmp/now" =
        [promptFor (pySafe (pyStrip "date > /tmp/now")), confirmTest,
         "    " ++ "date > /tmp/now", "fi"] := by
  have h := c6_redirect_wrapped "date > /tmp/now"
    (by decide) (by decide) (by decide) (by decide) (by decide)
  exact ⟨by decide, by decide, h.1, h.2⟩

/-- C10 counterexample: with the dry-run flag set and a wrappable content,
the file written by save_script is the shebang followed by the transformed
content, not by the original content as the claim states. -/
theorem c10_counterexample :
    ("rm -rf /tmp" : String) ≠ "" ∧
      pyStartsWith "rm -rf /tmp" "#!" = false ∧
      save_script true (some "rm -rf /tmp") ≠
        some { fileContent := "#!/bin/bash\n" ++ "rm -rf /tmp",
               fileMode := 493, panelShown := true } := by
  decide

/-- C10 amended: save_script returns immediately on missing or empty
content, writing no file, changing no permissions and printing no panel;
and for every non-empty content that does not start with the two
characters hash-bang, when the dry-run flag is off the written file is
exactly the shebang line followed by the content (with dry-run on, the
content is first rewritten by the wrapper before this check). -/
theorem c10_save_script (b : Bool) (c : String) (h1 : c ≠ "")
    (h2 : pyStartsWith c "#!" = false) :
    save_script b none = none ∧ save_script b (some "") = none ∧
      save_script false (some c) =
        some { fileContent := "#!/bin/bash\n" ++ c,
               fileMode := 493, panelShown := true } := by
  refine ⟨rfl, by simp [save_script], ?_⟩
  simp [save_script, h1, h2]

/-- Witness for the amended C10 at concrete arguments. -/
theorem c10_witness :
    ("ls /tmp" : String) ≠ "" ∧
      pyStartsWith "ls /tmp" "#!" = false ∧
      save_script true none = none ∧
      save_script false (some "ls /tmp") =
        some { fileContent := "#!/bin/bash\n" ++ "ls /tmp",
               fileMode := 493, panelShown := true } := by
  have h := c10_save_script true "ls /tmp" (by decide) (by decide)
  exact ⟨by decide, by decide, h.1, h.2.2⟩

